import Mathlib

/-!
Verification of the training-program model in `src/app.py`
(`BeardsleyModel` and the `optimize_volume` set-trimming loop).

The model functions are pure arithmetic; we embed them over `ℚ`
(exact rationals) except for the gross-stimulus curve, which uses the
natural logarithm and is embedded over `ℝ` with `Real.log`.
-/

namespace TrainingApp

/-- The load classes distinguished by `calculate_recovery_hours`:
the string `rep_range_type` is compared against the literals
`'Heavy (1-5)'` and `'Moderate (6-15)'`; anything else is light. -/
inductive LoadType where
  | Heavy
  | Moderate
  | Light
deriving DecidableEq, Repr

/-- The muscle length-profile strings that occur in `EXERCISE_DB`:
`"Lengthened"`, `"Shortened"`, `"Mid"`.  `calculate_recovery_hours`
only tests equality with `"Lengthened"`. -/
inductive MuscleProfile where
  | Lengthened
  | Shortened
  | Mid
deriving DecidableEq, Repr

/-- `BeardsleyModel.calculate_effective_sets(raw_sets, reps, rir)`:
`stimulating_reps = min(reps, max(0, 5 - rir))`;
`effective_set_value = stimulating_reps / 5.0`;
returns `raw_sets * effective_set_value`. -/
def calculate_effective_sets (raw_sets reps rir : ℚ) : ℚ :=
  raw_sets * (min reps (max 0 (5 - rir)) / 5)

/-- `BeardsleyModel.calculate_gross_stimulus(effective_sets)`:
returns `0.0` if `effective_sets <= 0`; otherwise
`eff = max(0.1, effective_sets)` and the result is
`0.55 * np.log(eff) + 1.0` (natural logarithm).  The logarithm forces
this single definition into `ℝ`; everything else stays in `ℚ`. -/
noncomputable def calculate_gross_stimulus (effective_sets : ℝ) : ℝ :=
  if effective_sets ≤ 0 then 0
  else 0.55 * Real.log (max 0.1 effective_sets) + 1

/-- Load multiplier in `calculate_recovery_hours`:
`0.6` for `'Heavy (1-5)'`, `1.0` for `'Moderate (6-15)'`, else `1.5`. -/
def load_mult : LoadType → ℚ
  | .Heavy => 6/10
  | .Moderate => 1
  | .Light => 15/10

/-- RIR multiplier in `calculate_recovery_hours`:
`rir_mult = 1.0 if rir <= 1 else 0.8`. -/
def rir_mult (rir : ℚ) : ℚ :=
  if rir ≤ 1 then 1 else 8/10

/-- Profile multiplier in `calculate_recovery_hours`:
`profile_mult = 1.25 if muscle_profile == "Lengthened" else 1.0`. -/
def profile_mult : MuscleProfile → ℚ
  | .Lengthened => 125/100
  | _ => 1

/-- `BeardsleyModel.calculate_recovery_hours(sets, rep_range_type,
muscle_profile, rir)`: `base_hours_per_set = 14.0`;
`total_hours = sets * base_hours_per_set * load_mult * rir_mult * profile_mult`. -/
def calculate_recovery_hours (sets : ℚ) (rep_range_type : LoadType)
    (muscle_profile : MuscleProfile) (rir : ℚ) : ℚ :=
  sets * 14 * load_mult rep_range_type * rir_mult rir * profile_mult muscle_profile

/-- The required recovery computed in `optimize_volume`:
`calculate_recovery_hours(total_sets, …)` followed by
`if m_damaged: req_recovery *= 1.2`. -/
def req_recovery (m_damaged : Bool) (total_sets : ℚ) (rep_scheme : LoadType)
    (m_profile : MuscleProfile) (rir_scheme : ℚ) : ℚ :=
  calculate_recovery_hours total_sets rep_scheme m_profile rir_scheme *
    (if m_damaged then 12/10 else 1)

/-- `cycle_hours = 168.0 / workouts_per_week` (both in `calculate_wns`
and in `optimize_volume`). -/
def cycle_hours (workouts_per_week : ℚ) : ℚ :=
  168 / workouts_per_week

/-- The recovery penalty in `calculate_wns`: `0.0` unless
`cycle_hours < recovery_hours`, in which case
`deficit = recovery_hours - cycle_hours` and the penalty is
`(deficit / recovery_hours) * 0.5`. -/
def recovery_penalty (workouts_per_week recovery_hours : ℚ) : ℚ :=
  if cycle_hours workouts_per_week < recovery_hours then
    ((recovery_hours - cycle_hours workouts_per_week) / recovery_hours) * (5/10)
  else 0

/-- The atrophy term in `calculate_wns`: `stimulus_duration = 48.0`,
`time_in_atrophy = max(0, cycle_hours - stimulus_duration)`,
`atrophy_loss = time_in_atrophy * 0.0134`. -/
def atrophy_loss (workouts_per_week : ℚ) : ℚ :=
  max 0 (cycle_hours workouts_per_week - 48) * (134/10000)

/-- `BeardsleyModel.calculate_wns(workouts_per_week,
gross_stimulus_per_workout, recovery_hours)`:
`net = gross * (1 - recovery_penalty) - atrophy_loss`;
returns `max(0, net * workouts_per_week)`. -/
def calculate_wns (workouts_per_week gross_stimulus_per_workout recovery_hours : ℚ) : ℚ :=
  max 0 ((gross_stimulus_per_workout *
            (1 - recovery_penalty workouts_per_week recovery_hours) -
          atrophy_loss workouts_per_week) * workouts_per_week)

/-- Modelled from the spec (§4.4 of `spec.md`), NOT from the code, for
comparison with `calculate_wns`: the spec's words say the gross stimulus
is multiplied by `penaltyFactor = cycleHours / recoveryHours` when
`cycleHours < recoveryHours`, and by `1.0` otherwise, before subtracting
the atrophy loss. -/
def wns_spec (workouts_per_week gross_stimulus_per_workout recovery_hours : ℚ) : ℚ :=
  max 0 ((gross_stimulus_per_workout *
            (if cycle_hours workouts_per_week < recovery_hours then
              cycle_hours workouts_per_week / recovery_hours
             else 1) -
          atrophy_loss workouts_per_week) * workouts_per_week)

/-- Decrement the last element of a list (the loop body
`target_ex = muscle_exercises[-1]; target_ex["Sets"] -= 1`; the Python
loop re-reads `muscle_exercises[-1]` on every iteration, so only the
final exercise of the muscle group is ever reduced). -/
def decLast : List ℕ → List ℕ
  | [] => []
  | [x] => [x - 1]
  | x :: y :: xs => x :: decLast (y :: xs)

/-- The set-trimming while-loop of `optimize_volume` (the `Recovery Check`
step for one muscle group), written with an explicit fuel parameter so
the recursion is structural.  The state is the list of per-exercise set
counts for that muscle (`total_sets` is its sum).  The loop is
`while req_recovery > cycle_hours and total_sets > 1:` take the last
exercise; if its set count is `> 1` decrement it (and re-compute
`req_recovery`), otherwise `break`.  Every productive iteration lowers
the total by one, so fuel `exs.sum` (supplied by `trim_sets`) is never
exhausted: at fuel `0` the total is `0` and the loop guard is false
anyway. -/
def trim_sets_fuel (m_damaged : Bool) (rep_scheme : LoadType) (m_profile : MuscleProfile)
    (rir_scheme : ℚ) (cycle : ℚ) : ℕ → List ℕ → List ℕ
  | 0, exs => exs
  | fuel + 1, exs =>
    if cycle < req_recovery m_damaged (exs.sum : ℚ) rep_scheme m_profile rir_scheme ∧
        1 < exs.sum then
      match exs.getLast? with
      | none => exs
      | some l =>
        if 1 < l then
          trim_sets_fuel m_damaged rep_scheme m_profile rir_scheme cycle fuel (decLast exs)
        else exs
    else exs

/-- The set-trimming refinement of `optimize_volume` for one muscle group:
run the while-loop on the list of per-exercise set counts. -/
def trim_sets (m_damaged : Bool) (rep_scheme : LoadType) (m_profile : MuscleProfile)
    (rir_scheme : ℚ) (cycle : ℚ) (exs : List ℕ) : List ℕ :=
  trim_sets_fuel m_damaged rep_scheme m_profile rir_scheme cycle exs.sum exs

/-! ### Helper lemmas about the trimming loop -/

theorem decLast_sum_lt : ∀ (xs : List ℕ) (l : ℕ), xs.getLast? = some l →
    1 ≤ l → (decLast xs).sum < xs.sum
  | [x], l, h, hl => by
    simp [List.getLast?] at h
    subst h
    simp [decLast]
    omega
  | x :: y :: xs, l, h, hl => by
    have ih := decLast_sum_lt (y :: xs) l (by simpa using h) hl
    simp only [List.sum_cons] at ih ⊢
    simp only [show decLast (x :: y :: xs) = x :: decLast (y :: xs) from rfl,
      List.sum_cons]
    omega

/-- After the while-loop finishes, either its guard
`req_recovery > cycle and total_sets > 1` is false, or the loop broke
because the last exercise is down to at most one set. -/
theorem trim_sets_fuel_post (d : Bool) (load : LoadType) (prof : MuscleProfile)
    (rir cycle : ℚ) :
    ∀ (fuel : ℕ) (exs : List ℕ), exs.sum ≤ fuel →
      ¬(cycle < req_recovery d ((trim_sets_fuel d load prof rir cycle fuel exs).sum : ℚ)
            load prof rir ∧
          1 < (trim_sets_fuel d load prof rir cycle fuel exs).sum) ∨
        ∃ l, (trim_sets_fuel d load prof rir cycle fuel exs).getLast? = some l ∧ ¬1 < l := by
  intro fuel
  induction fuel with
  | zero =>
    intro exs hsum
    left
    simp only [trim_sets_fuel]
    omega
  | succ fuel ih =>
    intro exs hsum
    simp only [trim_sets_fuel]
    by_cases hc : cycle < req_recovery d (exs.sum : ℚ) load prof rir ∧ 1 < exs.sum
    · rw [if_pos hc]
      cases hl : exs.getLast? with
      | none =>
        rw [List.getLast?_eq_none_iff] at hl
        subst hl
        simp at hc
      | some l =>
        dsimp only
        by_cases h1 : 1 < l
        · rw [if_pos h1]
          refine ih (decLast exs) ?_
          have := decLast_sum_lt exs l hl (by omega)
          omega
        · rw [if_neg h1]
          exact Or.inr ⟨l, hl, h1⟩
    · rw [if_neg hc]
      exact Or.inl hc

/-- A state on which the while-guard is false, or whose last exercise has
at most one set, is a fixed point of the loop, for any fuel. -/
theorem trim_sets_fuel_fix (d : Bool) (load : LoadType) (prof : MuscleProfile)
    (rir cycle : ℚ) (fuel : ℕ) (exs : List ℕ)
    (h : ¬(cycle < req_recovery d (exs.sum : ℚ) load prof rir ∧ 1 < exs.sum) ∨
      ∃ l, exs.getLast? = some l ∧ ¬1 < l) :
    trim_sets_fuel d load prof rir cycle fuel exs = exs := by
  cases fuel with
  | zero => rfl
  | succ fuel =>
    simp only [trim_sets_fuel]
    by_cases hc : cycle < req_recovery d (exs.sum : ℚ) load prof rir ∧ 1 < exs.sum
    · rw [if_pos hc]
      rcases h with h | ⟨l, hl, h1⟩
      · exact absurd hc h
      · rw [hl]
        dsimp only
        rw [if_neg h1]
    · rw [if_neg hc]

/-- The postcondition transported to `trim_sets` itself. -/
theorem trim_sets_post (d : Bool) (load : LoadType) (prof : MuscleProfile)
    (rir cycle : ℚ) (exs : List ℕ) :
    ¬(cycle < req_recovery d ((trim_sets d load prof rir cycle exs).sum : ℚ)
          load prof rir ∧
        1 < (trim_sets d load prof rir cycle exs).sum) ∨
      ∃ l, (trim_sets d load prof rir cycle exs).getLast? = some l ∧ ¬1 < l :=
  trim_sets_fuel_post d load prof rir cycle exs.sum exs le_rfl

/-! ### Claim theorems -/

/-- C4 (counterexample): starting from the candidate set counts `[3, 1]`
(two exercises for the muscle, the last already at one set), with an
easily-damaged lengthened muscle at moderate load, 0 RIR and frequency 3
(cycle 56 h), the trimming loop exits immediately — it only ever
decrements the *last* exercise — leaving total sets 4 and required
recovery 84 h > 56 h.  So neither disjunct of the claim holds. -/
theorem trim_sets_stops_early_cex :
    ¬(req_recovery true
          (((trim_sets true .Moderate .Lengthened 0 (cycle_hours 3) [3, 1]).sum : ℕ) : ℚ)
          .Moderate .Lengthened 0 ≤ cycle_hours 3 ∨
      (trim_sets true .Moderate .Lengthened 0 (cycle_hours 3) [3, 1]).sum = 1) := by
  have hres : trim_sets true .Moderate .Lengthened 0 (cycle_hours 3) [3, 1] = [3, 1] :=
    trim_sets_fuel_fix true .Moderate .Lengthened 0 (cycle_hours 3) ([3, 1] : List ℕ).sum
      [3, 1] (Or.inr ⟨1, by decide, by decide⟩)
  rw [hres]
  push_neg
  constructor
  · norm_num [req_recovery, calculate_recovery_hours, load_mult, rir_mult,
      profile_mult, cycle_hours]
  · decide

/-- C4 (amended): when the trimming loop terminates, either the recomputed
required recovery fits the cycle, or the muscle's total set count is at
most 1, or the loop stopped because the **last** exercise of the muscle
group reached a single set (the code only ever decrements
`muscle_exercises[-1]`, so other exercises may retain their sets). -/
theorem trim_sets_terminal (d : Bool) (load : LoadType) (prof : MuscleProfile)
    (rir freq : ℚ) (exs : List ℕ) :
    req_recovery d ((trim_sets d load prof rir (cycle_hours freq) exs).sum : ℚ)
        load prof rir ≤ cycle_hours freq ∨
      (trim_sets d load prof rir (cycle_hours freq) exs).sum ≤ 1 ∨
      ∃ l, (trim_sets d load prof rir (cycle_hours freq) exs).getLast? = some l ∧ l ≤ 1 := by
  rcases trim_sets_post d load prof rir (cycle_hours freq) exs with h | ⟨l, hl, h1⟩
  · push_neg at h
    by_cases hlt : cycle_hours freq <
        req_recovery d ((trim_sets d load prof rir (cycle_hours freq) exs).sum : ℚ) load prof rir
    · exact Or.inr (Or.inl (h hlt))
    · exact Or.inl (not_lt.mp hlt)
  · exact Or.inr (Or.inr ⟨l, hl, by omega⟩)

/-- C8: the trimming refinement is idempotent — running it a second time
changes nothing — and on a configuration whose required recovery already
fits the cycle it performs zero decrements. -/
theorem trim_sets_idempotent (d : Bool) (load : LoadType) (prof : MuscleProfile)
    (rir cycle : ℚ) (exs : List ℕ) :
    trim_sets d load prof rir cycle (trim_sets d load prof rir cycle exs) =
        trim_sets d load prof rir cycle exs ∧
      (req_recovery d (exs.sum : ℚ) load prof rir ≤ cycle →
        trim_sets d load prof rir cycle exs = exs) := by
  constructor
  · exact trim_sets_fuel_fix d load prof rir cycle
      (trim_sets d load prof rir cycle exs).sum
      (trim_sets d load prof rir cycle exs)
      (trim_sets_post d load prof rir cycle exs)
  · intro hle
    exact trim_sets_fuel_fix d load prof rir cycle exs.sum exs
      (Or.inl fun hcon => absurd hcon.1 (not_lt.mpr hle))

/-- C8 (witness): concrete instantiation of the idempotence theorem. -/
theorem trim_sets_idempotent_witness :
    trim_sets false .Moderate .Mid 0 84 (trim_sets false .Moderate .Mid 0 84 [3]) =
        trim_sets false .Moderate .Mid 0 84 [3] ∧
      (req_recovery false (([3] : List ℕ).sum : ℚ) .Moderate .Mid 0 ≤ 84 →
        trim_sets false .Moderate .Mid 0 84 [3] = [3]) :=
  trim_sets_idempotent false .Moderate .Mid 0 84 [3]

/-- C6: for a fixed load class, RIR, profile and damage flag, recovery
hours never decrease when the set count goes up by one (the formula is
`sets` times a non-negative constant). -/
theorem recovery_hours_mono_sets (d : Bool) (load : LoadType) (prof : MuscleProfile)
    (rir s : ℚ) :
    calculate_recovery_hours s load prof rir ≤
        calculate_recovery_hours (s + 1) load prof rir ∧
      req_recovery d s load prof rir ≤ req_recovery d (s + 1) load prof rir := by
  have hl : 0 ≤ load_mult load := by cases load <;> norm_num [load_mult]
  have hr : 0 ≤ rir_mult rir := by unfold rir_mult; split <;> norm_num
  have hp : 0 ≤ profile_mult prof := by cases prof <;> norm_num [profile_mult]
  have hd : 0 ≤ (if d then (12:ℚ)/10 else 1) := by cases d <;> norm_num
  have hc : (0:ℚ) ≤ 14 * load_mult load * rir_mult rir * profile_mult prof := by
    have := mul_nonneg (mul_nonneg (mul_nonneg (by norm_num : (0:ℚ) ≤ 14) hl) hr) hp
    linarith
  have key : calculate_recovery_hours s load prof rir ≤
      calculate_recovery_hours (s + 1) load prof rir := by
    unfold calculate_recovery_hours
    nlinarith [hc]
  exact ⟨key, mul_le_mul_of_nonneg_right key hd⟩

/-- C7: a bout with zero sets needs zero recovery hours; the formula is a
product with no division, so the (total) function neither divides by zero
nor can fail. -/
theorem recovery_hours_zero_sets (d : Bool) (load : LoadType) (prof : MuscleProfile)
    (rir : ℚ) :
    calculate_recovery_hours 0 load prof rir = 0 ∧ req_recovery d 0 load prof rir = 0 := by
  unfold req_recovery calculate_recovery_hours
  norm_num

/-- C3 (counterexample): at the claimed calibration point — 1 set,
moderate load (10 reps), 0 RIR, not easily damaged (the code's analogue
of the Middle damage class), Mid/Even profile — the code returns
`1 × 14.0 × 1.0 × 1.0 × 1.0 = 14.0` hours, not the claimed `22.5`. -/
theorem recovery_anchor_cex :
    req_recovery false 1 .Moderate .Mid 0 ≠ 45/2 := by
  norm_num [req_recovery, calculate_recovery_hours, load_mult, rir_mult, profile_mult]

/-- C3 (amended): the code's calibration anchor is 14.0 hours for 1 set,
moderate load, 0 RIR, not easily damaged, Mid/Even profile
(`base_hours_per_set = 14.0`, all multipliers 1). -/
theorem recovery_anchor :
    calculate_recovery_hours 1 .Moderate .Mid 0 = 14 ∧
      req_recovery false 1 .Moderate .Mid 0 = 14 := by
  norm_num [req_recovery, calculate_recovery_hours, load_mult, rir_mult, profile_mult]

/-- C5 (counterexample): at RIR 5 (> 4) the code's RIR multiplier is 0.8,
not 0.2: recovery hours for 1 moderate set at RIR 5 are `14 × 0.8 = 11.2`,
which differs from `0.2 × 14 = 2.8`. -/
theorem rir_ceiling_cex :
    rir_mult 5 = 8/10 ∧
      calculate_recovery_hours 1 .Moderate .Mid 5 ≠
        (2/10) * calculate_recovery_hours 1 .Moderate .Mid 0 := by
  norm_num [calculate_recovery_hours, load_mult, rir_mult, profile_mult]

/-- C5 (amended): for every RIR above 4 (indeed above 1) the code's RIR
multiplier is exactly 0.8, so recovery hours at such an RIR are exactly
0.8 times the value at RIR 0 with all other inputs equal. -/
theorem rir_mult_above_four (s : ℚ) (load : LoadType) (prof : MuscleProfile)
    (rir : ℚ) (h : 4 < rir) :
    rir_mult rir = 8/10 ∧
      calculate_recovery_hours s load prof rir =
        (8/10) * calculate_recovery_hours s load prof 0 := by
  have h1 : ¬rir ≤ 1 := by linarith
  have hm : rir_mult rir = 8/10 := by rw [rir_mult, if_neg h1]
  refine ⟨hm, ?_⟩
  unfold calculate_recovery_hours
  rw [hm, rir_mult, if_pos (by norm_num : (0:ℚ) ≤ 1)]
  ring

/-- C5 (witness): instantiation of the amended RIR theorem at RIR 5. -/
theorem rir_mult_above_four_witness :
    (4:ℚ) < 5 ∧
      (rir_mult 5 = 8/10 ∧
        calculate_recovery_hours 2 .Heavy .Lengthened 5 =
          (8/10) * calculate_recovery_hours 2 .Heavy .Lengthened 0) :=
  ⟨by norm_num, rir_mult_above_four 2 .Heavy .Lengthened 5 (by norm_num)⟩

/-- C1 (counterexample): at frequency 1 (cycle 168 h), gross stimulus 10
and recovery 336 h, the code multiplies the gross stimulus by
`1 - ((336-168)/336) * 0.5 = 0.75` (giving WNS `5.892`), not by the
spec's `penaltyFactor = 168/336 = 0.5` (which would give `3.392`). -/
theorem wns_penalty_cex :
    calculate_wns 1 10 336 = 1473/250 ∧ wns_spec 1 10 336 = 424/125 ∧
      calculate_wns 1 10 336 ≠ wns_spec 1 10 336 := by
  norm_num [calculate_wns, wns_spec, recovery_penalty, atrophy_loss, cycle_hours,
    max_def]

/-- C1 (amended): when `cycleHours < recoveryHours` the code multiplies
the gross stimulus by `1 - 0.5 × (recoveryHours - cycleHours)/recoveryHours
= (recoveryHours + cycleHours)/(2 × recoveryHours)` (not by
`cycleHours/recoveryHours`) before subtracting the atrophy loss; when
`cycleHours ≥ recoveryHours` the factor is exactly 1. -/
theorem wns_penalty_factor (freq gross rec : ℚ) (hrec : 0 < rec) :
    (cycle_hours freq < rec →
      1 - recovery_penalty freq rec = (rec + cycle_hours freq) / (2 * rec) ∧
        calculate_wns freq gross rec =
          max 0 ((gross * ((rec + cycle_hours freq) / (2 * rec)) - atrophy_loss freq) *
            freq)) ∧
      (rec ≤ cycle_hours freq →
        recovery_penalty freq rec = 0 ∧
          calculate_wns freq gross rec =
            max 0 ((gross * 1 - atrophy_loss freq) * freq)) := by
  constructor
  · intro h
    have hfac : 1 - recovery_penalty freq rec = (rec + cycle_hours freq) / (2 * rec) := by
      rw [recovery_penalty, if_pos h]
      field_simp
      ring
    exact ⟨hfac, by rw [calculate_wns, hfac]⟩
  · intro h
    have hp : recovery_penalty freq rec = 0 := by
      rw [recovery_penalty, if_neg (not_lt.mpr h)]
    exact ⟨hp, by rw [calculate_wns, hp]; norm_num⟩

/-- C1 (witness): instantiation of the amended penalty-factor theorem. -/
theorem wns_penalty_factor_witness :
    (0:ℚ) < 336 ∧
      ((cycle_hours 1 < 336 →
        1 - recovery_penalty 1 336 = (336 + cycle_hours 1) / (2 * 336) ∧
          calculate_wns 1 10 336 =
            max 0 ((10 * ((336 + cycle_hours 1) / (2 * 336)) - atrophy_loss 1) * 1)) ∧
        (336 ≤ cycle_hours 1 →
          recovery_penalty 1 336 = 0 ∧
            calculate_wns 1 10 336 = max 0 ((10 * 1 - atrophy_loss 1) * 1))) :=
  ⟨by norm_num, wns_penalty_factor 1 10 336 (by norm_num)⟩

/-- C9: the multiplier the code applies to the gross stimulus is
`1 - recovery_penalty`, and the penalty is always strictly below 0.5 for
any positive frequency — the deficit `recovery - cycle` is less than
`recovery` itself — so the net per bout is at least
`0.5 × grossStimulus - atrophyLoss` whenever the gross stimulus is
non-negative. -/
theorem wns_penalty_lt_half (freq gross rec : ℚ) (hf : 0 < freq) (hg : 0 ≤ gross) :
    recovery_penalty freq rec < 5/10 ∧
      (5/10) * gross - atrophy_loss freq ≤
        gross * (1 - recovery_penalty freq rec) - atrophy_loss freq := by
  have hcyc : 0 < cycle_hours freq := div_pos (by norm_num) hf
  have h1 : recovery_penalty freq rec < 5/10 := by
    rw [recovery_penalty]
    split
    · rename_i h
      have hrec : 0 < rec := lt_trans hcyc h
      have hlt : (rec - cycle_hours freq) / rec < 1 := by
        rw [div_lt_one hrec]
        linarith
      linarith
    · norm_num
  refine ⟨h1, ?_⟩
  have h2 : (5/10:ℚ) * gross ≤ gross * (1 - recovery_penalty freq rec) := by
    have h3 : (5/10:ℚ) ≤ 1 - recovery_penalty freq rec := by linarith
    calc (5/10:ℚ) * gross = gross * (5/10) := by ring
      _ ≤ gross * (1 - recovery_penalty freq rec) := mul_le_mul_of_nonneg_left h3 hg
  linarith

/-- C9 (witness): instantiation of the penalty lower-bound theorem. -/
theorem wns_penalty_lt_half_witness :
    (0:ℚ) < 2 ∧ (0:ℚ) ≤ 3 ∧
      (recovery_penalty 2 500 < 5/10 ∧
        (5/10) * 3 - atrophy_loss 2 ≤ 3 * (1 - recovery_penalty 2 500) - atrophy_loss 2) :=
  ⟨by norm_num, by norm_num, wns_penalty_lt_half 2 3 500 (by norm_num) (by norm_num)⟩

/-- C10: for non-negative raw sets, reps and RIR, the stimulating reps lie
in `[0, 5]`, so the effective-sets value lies between 0 and the raw set
count. -/
theorem effective_sets_bounds (raw_sets reps rir : ℚ) (hraw : 0 ≤ raw_sets)
    (hreps : 0 ≤ reps) (hrir : 0 ≤ rir) :
    0 ≤ calculate_effective_sets raw_sets reps rir ∧
      calculate_effective_sets raw_sets reps rir ≤ raw_sets := by
  have hstim0 : 0 ≤ min reps (max 0 (5 - rir)) := le_min hreps (le_max_left 0 _)
  have hstim5 : min reps (max 0 (5 - rir)) ≤ 5 :=
    le_trans (min_le_right _ _) (max_le (by norm_num) (by linarith))
  unfold calculate_effective_sets
  constructor
  · exact mul_nonneg hraw (div_nonneg hstim0 (by norm_num))
  · have hdiv : min reps (max 0 (5 - rir)) / 5 ≤ 1 := by
      rw [div_le_one (by norm_num : (0:ℚ) < 5)]
      exact hstim5
    calc raw_sets * (min reps (max 0 (5 - rir)) / 5) ≤ raw_sets * 1 :=
        mul_le_mul_of_nonneg_left hdiv hraw
      _ = raw_sets := mul_one raw_sets

/-- C10 (witness): instantiation of the effective-sets bounds. -/
theorem effective_sets_bounds_witness :
    (0:ℚ) ≤ 3 ∧ (0:ℚ) ≤ 10 ∧ (0:ℚ) ≤ 2 ∧
      (0 ≤ calculate_effective_sets 3 10 2 ∧ calculate_effective_sets 3 10 2 ≤ 3) :=
  ⟨by norm_num, by norm_num, by norm_num,
    effective_sets_bounds 3 10 2 (by norm_num) (by norm_num) (by norm_num)⟩

/-! ### The gross-stimulus curve (C2): bounds on `exp` and `log` -/

theorem exp_two_lt_ten : Real.exp 2 < 10 := by
  have h1 : Real.exp 2 = Real.exp 1 * Real.exp 1 := by
    rw [← Real.exp_add]
    norm_num
  nlinarith [Real.exp_one_lt_d9, Real.exp_pos 1]

theorem five_lt_exp_20_11 : (5:ℝ) < Real.exp (20/11) := by
  have e1 : (2.7:ℝ) < Real.exp 1 := lt_trans (by norm_num) Real.exp_one_gt_d9
  have hpow : (2.7:ℝ)^(20:ℕ) < Real.exp 1 ^ (20:ℕ) :=
    pow_lt_pow_left₀ e1 (by norm_num) (by norm_num)
  have h20 : Real.exp 1 ^ (20:ℕ) = Real.exp 20 := by
    rw [← Real.exp_nat_mul]
    norm_num
  have hbig : (5:ℝ)^(11:ℕ) < Real.exp 20 := by
    calc (5:ℝ)^(11:ℕ) < (2.7:ℝ)^(20:ℕ) := by norm_num
      _ < Real.exp 1 ^ (20:ℕ) := hpow
      _ = Real.exp 20 := h20
  have h11 : Real.exp 20 = Real.exp (20/11) ^ (11:ℕ) := by
    rw [← Real.exp_nat_mul]
    norm_num
  have hlt : (5:ℝ)^(11:ℕ) < Real.exp (20/11) ^ (11:ℕ) := by
    rw [← h11]
    exact hbig
  exact lt_of_pow_lt_pow_left₀ 11 (Real.exp_pos _).le hlt

/-- C2 (counterexample): the bout `sets = 1, reps = 1, rir = 4.9`
(positive integer sets and reps, non-negative rir) has effective sets
`1 × min(1, 0.1)/5 = 0.02 > 0`, so the curve is evaluated at the floor
`0.1` and yields `0.55 × ln(0.1) + 1 ≈ -0.266 < 0`: the gross stimulus
*can* fall below 0. -/
theorem gross_stimulus_neg_cex :
    calculate_effective_sets 1 1 (49/10) = 1/50 ∧
      calculate_gross_stimulus ((calculate_effective_sets 1 1 (49/10) : ℚ) : ℝ) < 0 := by
  have heff : calculate_effective_sets 1 1 (49/10) = 1/50 := by
    norm_num [calculate_effective_sets]
  refine ⟨heff, ?_⟩
  rw [heff]
  have hcast : (((1:ℚ)/50 : ℚ) : ℝ) = 1/50 := by push_cast; ring
  rw [hcast, calculate_gross_stimulus, if_neg (by norm_num)]
  have hmax : max (0.1:ℝ) (1/50) = 1/10 := by
    rw [max_eq_left (by norm_num)]
    norm_num
  rw [hmax]
  have hlog : Real.log (1/10) = -Real.log 10 := by
    rw [one_div, Real.log_inv]
  rw [hlog]
  have h10 : (20/11 : ℝ) < Real.log 10 := by
    have h : Real.exp (20/11) < 10 := by
      calc Real.exp (20/11) < Real.exp 2 := Real.exp_lt_exp.mpr (by norm_num)
        _ < 10 := exp_two_lt_ten
    exact (Real.lt_log_iff_exp_lt (by norm_num)).mpr h
  nlinarith [h10]

/-- C2 (amended): the gross stimulus is 0 when effective sets are ≤ 0 and
`0.55 × ln(max(0.1, effectiveSets)) + 1` otherwise; it is non-negative
for every bout whose sets, reps and rir are integers with sets ≥ 1 and
reps ≥ 1 (then positive effective sets are at least 1/5, above the
curve's zero at `e^(-20/11) ≈ 0.162`); for fractional rir strictly
between 4 and 5 it can be negative. -/
theorem gross_stimulus_nonneg (sets reps rir : ℕ) (hs : 1 ≤ sets) (hr : 1 ≤ reps) :
    (∀ e : ℝ, e ≤ 0 → calculate_gross_stimulus e = 0) ∧
      (∀ e : ℝ, 0 < e →
        calculate_gross_stimulus e = 0.55 * Real.log (max 0.1 e) + 1) ∧
      0 ≤ calculate_gross_stimulus ((calculate_effective_sets sets reps rir : ℚ) : ℝ) := by
  refine ⟨fun e he => by rw [calculate_gross_stimulus, if_pos he],
    fun e he => by rw [calculate_gross_stimulus, if_neg (not_le.mpr he)], ?_⟩
  by_cases hrir : (5:ℚ) ≤ (rir : ℚ)
  · have hmax : max (0:ℚ) (5 - (rir:ℚ)) = 0 := max_eq_left (by linarith)
    have heff : calculate_effective_sets sets reps rir = 0 := by
      rw [calculate_effective_sets, hmax, min_eq_right (by positivity)]
      norm_num
    rw [heff, calculate_gross_stimulus, if_pos (by norm_num)]
  · push_neg at hrir
    have hrir4 : (rir:ℚ) ≤ 4 := by
      have h5 : rir < 5 := by exact_mod_cast hrir
      have h4 : rir ≤ 4 := by omega
      exact_mod_cast h4
    have hstim : (1:ℚ) ≤ min (reps:ℚ) (max 0 (5 - (rir:ℚ))) := by
      refine le_min (by exact_mod_cast hr) ?_
      refine le_trans ?_ (le_max_right _ _)
      linarith
    have heff : (1:ℚ)/5 ≤ calculate_effective_sets sets reps rir := by
      rw [calculate_effective_sets]
      have hsets : (1:ℚ) ≤ (sets:ℚ) := by exact_mod_cast hs
      have hd : (1:ℚ)/5 ≤ min (reps:ℚ) (max 0 (5 - (rir:ℚ))) / 5 := by linarith
      calc (1:ℚ)/5 = 1 * (1/5) := by ring
        _ ≤ (sets:ℚ) * (min (reps:ℚ) (max 0 (5 - (rir:ℚ))) / 5) :=
            mul_le_mul hsets hd (by norm_num) (by positivity)
    have heffR : (1:ℝ)/5 ≤ ((calculate_effective_sets sets reps rir : ℚ) : ℝ) := by
      have h0 : (((1:ℚ)/5 : ℚ) : ℝ) ≤ ((calculate_effective_sets sets reps rir : ℚ) : ℝ) :=
        Rat.cast_le.mpr heff
      have h15 : (((1:ℚ)/5 : ℚ) : ℝ) = 1/5 := by norm_num
      rw [h15] at h0
      exact h0
    rw [calculate_gross_stimulus, if_neg (by push_neg; linarith)]
    have hmax5 : (1:ℝ)/5 ≤ max 0.1 ((calculate_effective_sets sets reps rir : ℚ) : ℝ) :=
      le_trans heffR (le_max_right _ _)
    have hlog : Real.log (1/5) ≤
        Real.log (max 0.1 ((calculate_effective_sets sets reps rir : ℚ) : ℝ)) :=
      Real.log_le_log (by norm_num) hmax5
    have hlog5 : -(20/11 : ℝ) ≤ Real.log (1/5) := by
      rw [one_div, Real.log_inv]
      have h5 : Real.log 5 ≤ (20/11 : ℝ) :=
        (Real.log_le_iff_le_exp (by norm_num)).mpr (le_of_lt five_lt_exp_20_11)
      linarith
    nlinarith [le_trans hlog5 hlog]

/-- C2 (witness): instantiation of the amended gross-stimulus theorem at
the calibration bout `sets = 1, reps = 10, rir = 0`. -/
theorem gross_stimulus_nonneg_witness :
    (1:ℕ) ≤ 1 ∧ (1:ℕ) ≤ 10 ∧
      ((∀ e : ℝ, e ≤ 0 → calculate_gross_stimulus e = 0) ∧
        (∀ e : ℝ, 0 < e →
          calculate_gross_stimulus e = 0.55 * Real.log (max 0.1 e) + 1) ∧
        0 ≤ calculate_gross_stimulus ((calculate_effective_sets 1 10 0 : ℚ) : ℝ)) :=
  ⟨by norm_num, by norm_num, by
    have h := gross_stimulus_nonneg 1 10 0 (by norm_num) (by norm_num)
    simpa using h⟩

end TrainingApp
